import Mathlib

/-!
Shallow embedding of the payment/billing-cycle core of the
`controlo-fibra-netkamba` repository (files `database.py` and `app.py`).

Calendar dates are triples of naturals mirroring `datetime.date`.  The
SQLite store is a record of lists mirroring the four tables `customers`,
`payment_methods`, `payments`, `service_status` and the notification table
`payment_notifications`.  The sqlite3 connection is modelled as the current
database together with an optional snapshot taken when a transaction is
open: `commit` drops the snapshot, `rollback` restores it.  Fallible
Python calls (`datetime.replace` raising `ValueError`) return `Option`.
-/

/-- Calendar date, mirroring `datetime.date` (proleptic Gregorian). -/
structure Date where
  year : Nat
  month : Nat
  day : Nat
deriving Repr, DecidableEq

/-- Gregorian leap-year rule used by `datetime`. -/
def isLeapYear (y : Nat) : Bool :=
  (y % 4 == 0 && y % 100 != 0) || (y % 400 == 0)

/-- Number of days of month `m` in year `y` (months counted 1..12). -/
def daysInMonth (y m : Nat) : Nat :=
  if m == 2 then (if isLeapYear y then 29 else 28)
  else if m == 4 || m == 6 || m == 9 || m == 11 then 30
  else 31

/-- Date validity as enforced by the `datetime` constructor. -/
def Date.isValid (d : Date) : Bool :=
  1 ≤ d.month && d.month ≤ 12 && 1 ≤ d.day && d.day ≤ daysInMonth d.year d.month

/-- Strict order on dates.  SQLite compares the stored `%Y-%m-%d` strings
lexicographically, which on zero-padded dates coincides with this
lexicographic order on (year, month, day). -/
def dateLt (a b : Date) : Bool :=
  Nat.blt a.year b.year ||
    (a.year == b.year &&
      (Nat.blt a.month b.month || (a.month == b.month && Nat.blt a.day b.day)))

/-- Left-pad a numeral to two digits, as `strftime` does for `%m`/`%d`. -/
def pad2 (n : Nat) : String :=
  if n < 10 then "0" ++ toString n else toString n

/-- Left-pad a year to four digits, as `strftime` does for `%Y`. -/
def pad4 (n : Nat) : String :=
  if n < 10 then "000" ++ toString n
  else if n < 100 then "00" ++ toString n
  else if n < 1000 then "0" ++ toString n
  else toString n

/-- Render a date as the `%Y-%m-%d` string stored in the DATE columns. -/
def Date.toStr (d : Date) : String :=
  pad4 d.year ++ "-" ++ pad2 d.month ++ "-" ++ pad2 d.day

/-- Days contained in the years `1 .. y-1`, as in `date.toordinal`. -/
def daysBeforeYear (y : Nat) : Nat :=
  let p := y - 1
  365 * p + p / 4 - p / 100 + p / 400

/-- Days contained in the months `1 .. m-1` of year `y`. -/
def daysBeforeMonth (y m : Nat) : Nat :=
  (List.range (m - 1)).foldl (fun acc i => acc + daysInMonth y (i + 1)) 0

/-- Ordinal day number of a date, mirroring `date.toordinal`. -/
def Date.toDays (d : Date) : Nat :=
  daysBeforeYear d.year + daysBeforeMonth d.year d.month + d.day

/-- Signed difference in days between two dates, as produced by
subtracting two pandas/`datetime` dates (`.dt.days`). -/
def daysDiff (a b : Date) : Int :=
  (a.toDays : Int) - (b.toDays : Int)

/-- Model of `datetime.replace(day=…)`: Python validates the new day
against the month currently stored and raises `ValueError` when it is out
of range, modelled by `none`.  There is no clamping. -/
def replaceDay (d : Date) (day : Nat) : Option Date :=
  if 1 ≤ day ∧ day ≤ daysInMonth d.year d.month then some { d with day := day }
  else none

/-- Model of `datetime.replace(year=…, month=…)`: the stored day must be
valid in the new month, otherwise `ValueError` (modelled by `none`). -/
def replaceYearMonth (d : Date) (y m : Nat) : Option Date :=
  if 1 ≤ m ∧ m ≤ 12 ∧ 1 ≤ d.day ∧ d.day ≤ daysInMonth y m then
    some { d with year := y, month := m }
  else none

/-- Due-date computation embedded from `DatabaseManager.register_customer`
(`database.py` lines 138-151): set the day-of-month of the contract start
to `payment_day`; if that day-of-month is smaller than the day-of-month of
the current date, advance one month with a December-to-January rollover.
Both `replace` calls raise `ValueError` (here `none`) when the requested
day does not exist in the target month; the code never clamps. -/
def computeFirstDueDate (contractStart : Date) (paymentDay : Nat) (currentDate : Date) :
    Option Date :=
  match replaceDay contractStart paymentDay with
  | none => none
  | some d =>
    if d.day < currentDate.day then
      if d.month == 12 then replaceYearMonth d (d.year + 1) 1
      else replaceYearMonth d d.year (d.month + 1)
    else some d

/-- Payment-status CASE expression of `DatabaseManager.get_all_customers`
(`database.py` lines 186-191): `Paid` when `payment_made = 1`, `Overdue`
when the due date lies strictly before the current date, else `Pending`. -/
def paymentStatusCase (paymentMade : Bool) (dueDate today : Date) : String :=
  if paymentMade then "Paid"
  else if dateLt dueDate today then "Overdue"
  else "Pending"

/-- Expiration classification of `ISPStreamlitApp.process_expiration_data`
(`app.py` lines 113-119): `pd.cut` over `days_to_expire` with bins
`(-inf,0] (0,30] (30,90] (90,inf)` labelled Expired/Critical/Warning/OK. -/
def expirationStatus (daysToExpire : Int) : String :=
  if daysToExpire ≤ 0 then "Expired"
  else if daysToExpire ≤ 30 then "Critical"
  else if daysToExpire ≤ 90 then "Warning"
  else "OK"

/-- Modelled from the spec: the 4-way payment classification the spec
claims every surface computes from `(paid, due_date, as_of_date)` — Paid
when paid; Expired/Overdue when unpaid and due before today; Critical when
unpaid and 0 ≤ days_to_due ≤ 30; OK otherwise.  Used only to compare the
two classification surfaces of the code against the spec (claim C6). -/
def specPaymentClassification (paid : Bool) (dueDate today : Date) : String :=
  if paid then "Paid"
  else if dateLt dueDate today then "Overdue"
  else if 0 ≤ daysDiff dueDate today ∧ daysDiff dueDate today ≤ 30 then "Critical"
  else "OK"

/-- Row of the `customers` table. -/
structure Customer where
  customer_id : Nat
  name : String
  address : String
  phone : String
  mbps : Int
  state : String
  contract_date : Date
  payment_day : Nat
deriving Repr, DecidableEq

/-- Row of the `payment_methods` table. -/
structure PaymentMethod where
  payment_method_id : Nat
  customer_id : Nat
  payment_type : String
  bank : String
  iban : String
  expiration_date : Date
deriving Repr, DecidableEq

/-- Row of the `payments` table.  `payment_made` is the paid flag;
`payment_date` is NULL (`none`) until a payment is recorded. -/
structure Payment where
  payment_id : Nat
  customer_id : Nat
  payment_date : Option Date
  due_date : Date
  value : Int
  payment_made : Bool
deriving Repr, DecidableEq

/-- Row of the `service_status` table created by
`PaymentMonitor.setup_triggers`: `status_id` is an autoincrement primary
key and `customer_id` carries no unique constraint. -/
structure ServiceStatus where
  status_id : Nat
  customer_id : Nat
  is_active : Bool
  last_status_change : Date
deriving Repr, DecidableEq

/-- Row of the `payment_notifications` table. -/
structure NotificationEvent where
  notification_id : Nat
  customer_id : Nat
  message : String
  notification_date : Date
  category : String
deriving Repr, DecidableEq

/-- The five relations of the SQLite store, plus the next autoincrement
key of each table. -/
structure DB where
  customers : List Customer
  payment_methods : List PaymentMethod
  payments : List Payment
  service_status : List ServiceStatus
  payment_notifications : List NotificationEvent
  nextCustomerId : Nat
  nextPaymentMethodId : Nat
  nextPaymentId : Nat
  nextStatusId : Nat
  nextNotificationId : Nat
deriving Repr, DecidableEq

/-- The empty store, as created by `create_tables`/`setup_triggers`. -/
def emptyDB : DB :=
  { customers := [], payment_methods := [], payments := [], service_status := []
    payment_notifications := [], nextCustomerId := 1, nextPaymentMethodId := 1
    nextPaymentId := 1, nextStatusId := 1, nextNotificationId := 1 }

/-- A sqlite3 connection: the current database plus the snapshot taken
when a transaction is open (`none` = autocommit state).  `commit` drops
the snapshot, `rollback` restores it. -/
structure Conn where
  db : DB
  snapshot : Option DB
deriving Repr, DecidableEq

/-- Implicit transaction start of the Python sqlite3 driver: the first
data-modifying statement opens a transaction unless one is already open. -/
def beginImplicit (c : Conn) : Conn :=
  match c.snapshot with
  | some _ => c
  | none => { c with snapshot := some c.db }

/-- Model of `conn.commit()`. -/
def commitTxn (c : Conn) : Conn :=
  { c with snapshot := none }

/-- Model of `conn.rollback()`: restores the snapshot when a transaction
is open and is a no-op otherwise. -/
def rollbackTxn (c : Conn) : Conn :=
  match c.snapshot with
  | some s => { db := s, snapshot := none }
  | none => c

/-- Customer fields of one registration request (the `customer_data`
dictionary of `register_customer`), with `contract_date` already parsed. -/
structure CustomerData where
  name : String
  address : String
  phone : String
  mbps : Int
  state : String
  contract_date : Date
  payment_day : Nat
deriving Repr, DecidableEq

/-- Payment-method fields of one registration request (the `payment_data`
dictionary of `register_customer`). -/
structure PaymentData where
  payment_type : String
  bank : String
  iban : String
  value : Int
  expiration_date : Date
deriving Repr, DecidableEq

/-- Outcome of `register_customer`: the Python function returns
`(True, customer_id)` on success and lets the `ValueError` raised by
`datetime.replace` escape (it catches only `sqlite3.Error`). -/
inductive RegResult where
  | ok (customer_id : Nat)
  | valueError (msg : String)
deriving Repr, DecidableEq

/-- The `AFTER INSERT` trigger `payment_due_trigger` on `payments`: for an
inserted row with `payment_made = 0` it appends a PENDING notification
`Payment due on <due_date>` dated today. -/
def paymentDueTrigger (db : DB) (cid : Nat) (due : Date) (today : Date) : DB :=
  { db with
    payment_notifications := db.payment_notifications ++
      [{ notification_id := db.nextNotificationId, customer_id := cid
         message := "Payment due on " ++ due.toStr, notification_date := today
         category := "PENDING" }]
    nextNotificationId := db.nextNotificationId + 1 }

/-- Embedding of `DatabaseManager.register_customer` (`database.py` lines
102-169): inserts the customer and its payment method, computes the first
due date, inserts the initial unpaid payment (firing the PENDING trigger)
and commits.  When the due-date computation raises `ValueError` the
exception escapes the `except sqlite3.Error` clause, so the partial
inserts stay in the still-open transaction and nothing is committed. -/
def register_customer (c : Conn) (cd : CustomerData) (pdta : PaymentData) (today : Date) :
    RegResult × Conn :=
  let c1 := beginImplicit c
  let cid := c1.db.nextCustomerId
  let db1 := { c1.db with
    customers := c1.db.customers ++
      [({ customer_id := cid, name := cd.name, address := cd.address, phone := cd.phone
          mbps := cd.mbps, state := cd.state, contract_date := cd.contract_date
          payment_day := cd.payment_day } : Customer)]
    nextCustomerId := cid + 1 }
  let db2 := { db1 with
    payment_methods := db1.payment_methods ++
      [({ payment_method_id := db1.nextPaymentMethodId, customer_id := cid
          payment_type := pdta.payment_type, bank := pdta.bank, iban := pdta.iban
          expiration_date := pdta.expiration_date } : PaymentMethod)]
    nextPaymentMethodId := db1.nextPaymentMethodId + 1 }
  match computeFirstDueDate cd.contract_date cd.payment_day today with
  | none =>
    (RegResult.valueError "day is out of range for month", Conn.mk db2 c1.snapshot)
  | some due =>
    let db3 := { db2 with
      payments := db2.payments ++
        [{ payment_id := db2.nextPaymentId, customer_id := cid, payment_date := none
           due_date := due, value := pdta.value, payment_made := false }]
      nextPaymentId := db2.nextPaymentId + 1 }
    let db4 := paymentDueTrigger db3 cid due today
    (RegResult.ok cid, commitTxn (Conn.mk db4 c1.snapshot))

/-- Update applied by the SQL statement of `record_payment` to one row of
`payments`: rows of the given customer with `payment_made = 0` get
`payment_made = 1` and `payment_date = today`; all other rows are kept. -/
def recordPaymentUpd (cid : Nat) (today : Date) (p : Payment) : Payment :=
  if p.customer_id == cid && p.payment_made == false then
    { p with payment_made := true, payment_date := some today }
  else p

/-- Embedding of `DatabaseManager.record_payment` (`database.py` lines
261-274): one UPDATE over every unpaid payment of the customer, then
commit; the function returns `True` whether or not any row matched, and
no trigger or notification write is attached to UPDATE statements. -/
def record_payment (c : Conn) (cid : Nat) (today : Date) : Bool × Conn :=
  let c1 := beginImplicit c
  let db1 := { c1.db with payments := c1.db.payments.map (recordPaymentUpd cid today) }
  (true, commitTxn (Conn.mk db1 c1.snapshot))

/-- Embedding of `DatabaseManager.update_customer_status` (`database.py`
lines 249-259): sets the `state` column of one customer and commits. -/
def update_customer_status (c : Conn) (cid : Nat) (newStatus : String) : Bool × Conn :=
  let c1 := beginImplicit c
  let db1 := { c1.db with
    customers := c1.db.customers.map fun cu =>
      if cu.customer_id == cid then { cu with state := newStatus } else cu }
  (true, commitTxn (Conn.mk db1 c1.snapshot))

/-- Result row of the SELECT in `check_expired_payments`: the columns
`c.customer_id, c.name, p.due_date, p.value, s.is_active`, the last one
NULL when the LEFT JOIN found no `service_status` row. -/
structure OverdueRow where
  customer_id : Nat
  name : String
  due_date : Date
  value : Int
  is_active : Option Bool
deriving Repr, DecidableEq

/-- LEFT JOIN of one customer against `service_status`: when the customer
has no row the join contributes a single NULL row, otherwise one row per
matching `service_status` row. -/
def joinedStatuses (db : DB) (cid : Nat) : List (Option ServiceStatus) :=
  match db.service_status.filter (fun s => s.customer_id == cid) with
  | [] => [none]
  | a :: t => (a :: t).map some

/-- Embedding of `PaymentMonitor.check_expired_payments` (`app.py` lines
587-606): `customers JOIN payments LEFT JOIN service_status` filtered by
`payment_made = 0 AND due_date < now AND (is_active = 1 OR is_active IS
NULL)`.  A read-only SELECT. -/
def check_expired_payments (db : DB) (today : Date) : List OverdueRow :=
  db.customers.flatMap fun cu =>
    (db.payments.filter fun p => p.customer_id == cu.customer_id).flatMap fun p =>
      (joinedStatuses db cu.customer_id).filterMap fun s? =>
        if p.payment_made == false && dateLt p.due_date today &&
            (match s? with | none => true | some s => s.is_active) then
          some { customer_id := cu.customer_id, name := cu.name, due_date := p.due_date
                 value := p.value, is_active := s?.map fun s => s.is_active }
        else none

/-- Embedding of `PaymentMonitor.toggle_service_status` (`app.py` lines
613-630).  The `INSERT OR REPLACE INTO service_status` names the columns
`(customer_id, is_active, last_status_change)` only, so `status_id` is a
fresh autoincrement value on every call and — `customer_id` carrying no
unique constraint — no conflict ever arises: the statement behaves as a
plain INSERT appending a new row.  A second INSERT appends the INFO
notification, then the transaction commits. -/
def toggle_service_status (c : Conn) (cid : Nat) (activate : Bool) (today : Date) :
    Bool × Conn :=
  let c1 := beginImplicit c
  let db1 := { c1.db with
    service_status := c1.db.service_status ++
      [({ status_id := c1.db.nextStatusId, customer_id := cid, is_active := activate
          last_status_change := today } : ServiceStatus)]
    nextStatusId := c1.db.nextStatusId + 1 }
  let msg := "Service " ++ (if activate then "activated" else "deactivated")
  let db2 := { db1 with
    payment_notifications := db1.payment_notifications ++
      [({ notification_id := db1.nextNotificationId, customer_id := cid, message := msg
          notification_date := today, category := "INFO" } : NotificationEvent)]
    nextNotificationId := db1.nextNotificationId + 1 }
  (true, commitTxn (Conn.mk db2 c1.snapshot))

/-- Embedding of `ISPInterface.check_payments` (`app.py` lines 712-720),
the periodic sweep: it calls the read-only `check_expired_payments` and
renders the result into Tk widgets; it performs no INSERT or UPDATE, so
the store — the notification log included — is returned unchanged. -/
def check_payments (db : DB) (today : Date) : DB × List OverdueRow :=
  (db, check_expired_payments db today)

/-- One row of the Excel sheet handed to `import_excel_data`, after the
per-row field conversions of the `try` block: either the converted
customer and payment dictionaries, or the message of the exception the
conversion raised (for example `int(row[mbps])` on a non-numeric cell). -/
inductive RawRow where
  | valid (cd : CustomerData) (pdta : PaymentData)
  | invalid (msg : String)
deriving Repr, DecidableEq

/-- Row loop of `import_excel_data`: `idx` is the zero-based dataframe
index, `succ` the running success count, `errs` the collected per-row
error strings `Row <idx+2>: <msg>`.  Each valid row goes through the full
`register_customer` path, which commits on success. -/
def importLoop (c : Conn) (rows : List RawRow) (idx succ : Nat) (errs : List String)
    (today : Date) : (Nat × List String) × Conn :=
  match rows with
  | [] => ((succ, errs), c)
  | r :: rest =>
    match r with
    | RawRow.valid cd pdta =>
      match register_customer c cd pdta today with
      | (RegResult.ok _, c1) => importLoop c1 rest (idx + 1) (succ + 1) errs today
      | (RegResult.valueError msg, c1) =>
        importLoop c1 rest (idx + 1) succ (errs ++ [s!"Row {idx + 2}: {msg}"]) today
    | RawRow.invalid msg =>
      importLoop c rest (idx + 1) succ (errs ++ [s!"Row {idx + 2}: {msg}"]) today

/-- Error message assembled by `import_excel_data` when some rows failed:
the success and error counts, the first ten per-row errors, and a count of
the remainder. -/
def importErrorMessage (succ : Nat) (errs : List String) : String :=
  s!"Imported {succ} customers with {errs.length} errors:\n" ++
    String.intercalate "\n" (errs.take 10) ++
    (if errs.length > 10 then s!"\n... and {errs.length - 10} more errors" else "")

/-- Embedding of `DatabaseManager.import_excel_data` (`database.py` lines
305-363): BEGIN TRANSACTION, run every row through `register_customer`,
then commit when no row failed and roll back otherwise.  BEGIN with a
transaction already open raises `sqlite3.OperationalError`, caught by the
outer handler which rolls back.  Because `register_customer` commits after
each successful row, the final rollback only undoes work left uncommitted
since the last per-row commit. -/
def import_excel_data (c : Conn) (rows : List RawRow) (today : Date) :
    (Bool × String) × Conn :=
  match c.snapshot with
  | some _ =>
    ((false, "Error importing data: cannot start a transaction within a transaction"),
      rollbackTxn c)
  | none =>
    let start := Conn.mk c.db (some c.db)
    let res := importLoop start rows 0 0 [] today
    let succ := res.1.1
    let errs := res.1.2
    let cEnd := res.2
    if errs.isEmpty then
      ((true, s!"Successfully imported {succ} customers"), commitTxn cEnd)
    else
      ((false, importErrorMessage succ errs), rollbackTxn cEnd)

/-- Characterization of a successful `computeFirstDueDate`: the result
keeps day-of-month `paymentDay`, valid in its month, and lies either in
the contract-start month (no advance), the following month, or January of
the next year (December rollover). -/
theorem computeFirstDueDate_eq_some (cs : Date) (pd : Nat) (cur : Date) (d : Date)
    (h : computeFirstDueDate cs pd cur = some d) :
    1 ≤ pd ∧ pd ≤ daysInMonth cs.year cs.month ∧ d.day = pd ∧
      pd ≤ daysInMonth d.year d.month ∧
      ((pd < cur.day ∧ cs.month = 12 ∧ d.year = cs.year + 1 ∧ d.month = 1) ∨
       (pd < cur.day ∧ cs.month ≠ 12 ∧ d.year = cs.year ∧ d.month = cs.month + 1) ∨
       (¬ pd < cur.day ∧ d.year = cs.year ∧ d.month = cs.month)) := by
  unfold computeFirstDueDate at h
  cases hrep : replaceDay cs pd with
  | none => rw [hrep] at h; cases h
  | some d0 =>
    rw [hrep] at h
    dsimp only at h
    have hd0 : (1 ≤ pd ∧ pd ≤ daysInMonth cs.year cs.month) ∧
        d0 = { year := cs.year, month := cs.month, day := pd } := by
      unfold replaceDay at hrep
      split at hrep
      case isTrue h1 => exact ⟨h1, (Option.some.inj hrep).symm⟩
      case isFalse h1 => cases hrep
    obtain ⟨⟨hpd1, hpd2⟩, rfl⟩ := hd0
    by_cases h2 : pd < cur.day
    · rw [if_pos h2] at h
      by_cases h3 : cs.month = 12
      · rw [if_pos (by simpa using h3)] at h
        unfold replaceYearMonth at h
        split at h
        next h4 =>
          obtain rfl := (Option.some.inj h).symm
          exact ⟨hpd1, hpd2, rfl, by simpa using h4.2.2.2,
            Or.inl ⟨h2, h3, rfl, rfl⟩⟩
        next h4 => cases h
      · rw [if_neg (by simpa using h3)] at h
        unfold replaceYearMonth at h
        split at h
        next h4 =>
          obtain rfl := (Option.some.inj h).symm
          exact ⟨hpd1, hpd2, rfl, by simpa using h4.2.2.2,
            Or.inr (Or.inl ⟨h2, h3, rfl, rfl⟩)⟩
        next h4 => cases h
    · rw [if_neg h2] at h
      obtain rfl := (Option.some.inj h).symm
      exact ⟨hpd1, hpd2, rfl, hpd2, Or.inr (Or.inr ⟨h2, rfl, rfl⟩)⟩

/-- Claim C1 (amended): at registration the first due date sets the
day-of-month to `payment_day` in the contract-start month; when
`payment_day` is smaller than the day-of-month of the current calendar
date the date advances to the following month, with December-to-January
year rollover; but when `payment_day` exceeds the number of days of the
relevant month the computation raises `ValueError` (here `none`) — the
day is never clamped.  The two scenarios of the spec hold: registration
2024-01-15 with payment_day 20 gives 2024-01-20 under current date
2024-01-10 and 2024-02-20 under current date 2024-01-25. -/
theorem first_due_date_registration :
    computeFirstDueDate ⟨2024, 1, 15⟩ 20 ⟨2024, 1, 10⟩ = some ⟨2024, 1, 20⟩ ∧
    computeFirstDueDate ⟨2024, 1, 15⟩ 20 ⟨2024, 1, 25⟩ = some ⟨2024, 2, 20⟩ ∧
    (∀ cs : Date, ∀ pd : Nat, ∀ cur : Date,
      daysInMonth cs.year cs.month < pd → computeFirstDueDate cs pd cur = none) ∧
    (∀ cs : Date, ∀ pd : Nat, ∀ cur : Date, ∀ d : Date,
      computeFirstDueDate cs pd cur = some d →
        d.day = pd ∧
          ((pd < cur.day ∧ cs.month = 12 ∧ d.year = cs.year + 1 ∧ d.month = 1) ∨
           (pd < cur.day ∧ cs.month ≠ 12 ∧ d.year = cs.year ∧ d.month = cs.month + 1) ∨
           (¬ pd < cur.day ∧ d.year = cs.year ∧ d.month = cs.month))) := by
  refine ⟨by decide, by decide, ?_, ?_⟩
  · intro cs pd cur h
    unfold computeFirstDueDate replaceDay
    rw [if_neg (by omega)]
  · intro cs pd cur d h
    have hc := computeFirstDueDate_eq_some cs pd cur d h
    exact ⟨hc.2.2.1, hc.2.2.2.2⟩

/-- Witness for `first_due_date_registration`: payment_day 31 in April
fails (April has 30 days), and the rolled scenario result has day 20. -/
theorem first_due_date_registration_witness :
    computeFirstDueDate ⟨2024, 4, 10⟩ 31 ⟨2024, 4, 5⟩ = none ∧
    (⟨2024, 2, 20⟩ : Date).day = 20 := by
  refine ⟨first_due_date_registration.2.2.1 ⟨2024, 4, 10⟩ 31 ⟨2024, 4, 5⟩ (by decide), ?_⟩
  exact (first_due_date_registration.2.2.2 ⟨2024, 1, 15⟩ 20 ⟨2024, 1, 25⟩ ⟨2024, 2, 20⟩
    first_due_date_registration.2.1).1

/-- Counterexample to claim C1 as stated: for a contract dated in
February 2024 with payment_day 31, the code raises `ValueError`
(modelled `none`) instead of clamping the day to 2024-02-29. -/
theorem first_due_date_no_clamp_counterexample :
    computeFirstDueDate ⟨2024, 2, 10⟩ 31 ⟨2024, 2, 5⟩ = none ∧
    computeFirstDueDate ⟨2024, 2, 10⟩ 31 ⟨2024, 2, 5⟩ ≠ some ⟨2024, 2, 29⟩ := by
  decide

/-- Claim C7 (amended): whenever the first-due-date computation succeeds
its day-of-month equals `payment_day` and is within the valid range of
its month; inputs whose `payment_day` exceeds the days of the relevant
month make the computation fail with an error instead of clamping, and
the returned date may precede the contract start date. -/
theorem first_due_date_day_in_range (cs : Date) (pd : Nat) (cur : Date) (d : Date)
    (h : computeFirstDueDate cs pd cur = some d) :
    d.day = pd ∧ 1 ≤ d.day ∧ d.day ≤ daysInMonth d.year d.month := by
  have hc := computeFirstDueDate_eq_some cs pd cur d h
  refine ⟨hc.2.2.1, ?_, ?_⟩
  · rw [hc.2.2.1]; exact hc.1
  · rw [hc.2.2.1]; exact hc.2.2.2.1

/-- Witness for `first_due_date_day_in_range` at the first spec scenario. -/
theorem first_due_date_day_in_range_witness :
    (⟨2024, 1, 20⟩ : Date).day = 20 ∧ 1 ≤ (⟨2024, 1, 20⟩ : Date).day ∧
      (⟨2024, 1, 20⟩ : Date).day ≤
        daysInMonth (⟨2024, 1, 20⟩ : Date).year (⟨2024, 1, 20⟩ : Date).month :=
  first_due_date_day_in_range ⟨2024, 1, 15⟩ 20 ⟨2024, 1, 10⟩ ⟨2024, 1, 20⟩ (by decide)

/-- Counterexample to claim C7 as stated: with contract start 2024-01-15,
payment_day 5 and current date 2024-02-03 the code returns 2024-01-05,
which is strictly before the contract start date. -/
theorem first_due_date_before_contract_counterexample :
    computeFirstDueDate ⟨2024, 1, 15⟩ 5 ⟨2024, 2, 3⟩ = some ⟨2024, 1, 5⟩ ∧
    dateLt ⟨2024, 1, 5⟩ ⟨2024, 1, 15⟩ = true := by
  decide

/-- Claim C6 (amended): payment status is derived, not stored, but the
surfaces do not share one classification.  `get_all_customers` computes a
3-way CASE — Paid, Overdue (unpaid and due before today), Pending — and
never outputs Critical, while `process_expiration_data` buckets
days-to-expire of contract expirations into Expired/Critical/Warning/OK,
with Critical exactly on 0 < days ≤ 30.  On the spec scenario (due
2024-03-01, as-of 2024-03-15) the CASE yields Overdue. -/
theorem classification_surfaces (paid : Bool) (due today : Date) (n : Int) :
    (paymentStatusCase paid due today = "Paid" ∨
      paymentStatusCase paid due today = "Overdue" ∨
      paymentStatusCase paid due today = "Pending") ∧
    paymentStatusCase paid due today ≠ "Critical" ∧
    (0 < n → n ≤ 30 → expirationStatus n = "Critical") ∧
    paymentStatusCase false ⟨2024, 3, 1⟩ ⟨2024, 3, 15⟩ = "Overdue" := by
  refine ⟨?_, ?_, ?_, by decide⟩
  · unfold paymentStatusCase
    split_ifs <;> simp
  · unfold paymentStatusCase
    split_ifs <;> simp
  · intro h1 h2
    unfold expirationStatus
    rw [if_neg (by omega), if_pos (by omega)]

/-- Witness for `classification_surfaces` at the spec scenario inputs
(unpaid, due 2024-03-01, as-of 2024-02-20; 10 days to due). -/
theorem classification_surfaces_witness :
    paymentStatusCase false ⟨2024, 3, 1⟩ ⟨2024, 2, 20⟩ ≠ "Critical" ∧
    expirationStatus 10 = "Critical" := by
  have h := classification_surfaces false ⟨2024, 3, 1⟩ ⟨2024, 2, 20⟩ 10
  exact ⟨h.2.1, h.2.2.1 (by decide) (by decide)⟩

/-- Counterexample to claim C6 as stated: on the spec scenario (unpaid,
due 2024-03-01, as-of 2024-02-20, 10 days to due) the spec 4-way
classification gives Critical but the CASE expression of
`get_all_customers` gives Pending, so the classification is not identical
across the reporting surfaces. -/
theorem classification_not_identical_counterexample :
    specPaymentClassification false ⟨2024, 3, 1⟩ ⟨2024, 2, 20⟩ = "Critical" ∧
    paymentStatusCase false ⟨2024, 3, 1⟩ ⟨2024, 2, 20⟩ = "Pending" ∧
    ("Critical" : String) ≠ "Pending" := by
  refine ⟨by decide, by decide, by decide⟩

/-- Claim C8: the periodic sweep `check_payments` only performs the
read-only overdue SELECT and renders it to widgets; it never writes to
`payment_notifications`, so two sweeps with the same as-of date on
unchanged data leave the notification log after the second run identical
to the log after the first run (no duplicate entries), and return the
same rows. -/
theorem sweep_idempotent_on_notification_log (db : DB) (today : Date) :
    (check_payments (check_payments db today).1 today).1.payment_notifications =
      (check_payments db today).1.payment_notifications ∧
    (check_payments (check_payments db today).1 today).2 =
      (check_payments db today).2 ∧
    (check_payments db today).1 = db :=
  ⟨rfl, rfl, rfl⟩

/-- Pointwise no-op case of the `record_payment` UPDATE: a row that is
already paid, or belongs to another customer, is left unchanged. -/
theorem recordPaymentUpd_eq_self (p : Payment) (cid : Nat) (today : Date)
    (h : p.customer_id = cid → p.payment_made = true) :
    recordPaymentUpd cid today p = p := by
  unfold recordPaymentUpd
  by_cases hc : p.customer_id = cid
  · simp [hc, h hc]
  · simp [hc]

/-- Pointwise matched case of the `record_payment` UPDATE: an unpaid row
of the customer gets the paid flag and the payment date. -/
theorem recordPaymentUpd_eq_upd (p : Payment) (cid : Nat) (today : Date)
    (hc : p.customer_id = cid) (hu : p.payment_made = false) :
    recordPaymentUpd cid today p =
      { p with payment_made := true, payment_date := some today } := by
  simp [recordPaymentUpd, hc, hu]

/-- Evaluation of `record_payment`: it always returns `True` and commits
the mapped payments list; no other relation is touched. -/
theorem record_payment_eq (c : Conn) (cid : Nat) (today : Date) :
    record_payment c cid today =
      (true, Conn.mk { c.db with payments := c.db.payments.map (recordPaymentUpd cid today) }
        none) := by
  cases hs : c.snapshot <;> simp [record_payment, beginImplicit, commitTxn, hs]

/-- Mapped payments list when the customer has no outstanding unpaid row:
the UPDATE matches nothing and the list is unchanged. -/
theorem map_recordPaymentUpd_of_none_unpaid (l : List Payment) (cid : Nat) (today : Date)
    (h : ∀ p ∈ l, p.customer_id = cid → p.payment_made = true) :
    l.map (recordPaymentUpd cid today) = l := by
  induction l with
  | nil => rfl
  | cons p t ih =>
    have hp := recordPaymentUpd_eq_self p cid today (h p (by simp))
    have ht := ih fun q hq => h q (by simp [hq])
    simp [hp, ht]

/-- Fixture: one registered customer. -/
def cust1 : Customer :=
  { customer_id := 1, name := "Ana", address := "Rua A", phone := "912",
    mbps := 100, state := "Active", contract_date := ⟨2024, 1, 15⟩, payment_day := 20 }

/-- Fixture: one unpaid payment of customer 1 due 2024-01-20. -/
def payUnpaid : Payment :=
  { payment_id := 1, customer_id := 1, payment_date := none, due_date := ⟨2024, 1, 20⟩,
    value := 50, payment_made := false }

/-- Fixture: a connection whose store holds customer 1 and no payment
rows, hence no outstanding unpaid record. -/
def connNoOutstanding : Conn :=
  Conn.mk { emptyDB with customers := [cust1], nextCustomerId := 2 } none

/-- Fixture: a connection whose store holds customer 1 with one unpaid
payment. -/
def connOneUnpaid : Conn :=
  Conn.mk
    { emptyDB with
      customers := [cust1], payments := [payUnpaid]
      nextCustomerId := 2, nextPaymentId := 2 }
    none

/-- Claim C3 (amended): `record_payment` marks the unpaid PaymentRecords
of the customer as paid with the current date, but it emits no
NotificationEvent at all, and when the customer has no outstanding unpaid
record it does not fail: it reports success and leaves the store
unchanged (there is no `NoOutstandingPaymentError` anywhere in the code). -/
theorem record_payment_error_handling (c : Conn) (cid : Nat) (today : Date) :
    (record_payment c cid today).1 = true ∧
    (record_payment c cid today).2.db.payment_notifications = c.db.payment_notifications ∧
    ((∀ p ∈ c.db.payments, p.customer_id = cid → p.payment_made = true) →
      (record_payment c cid today).2.db = c.db) := by
  rw [record_payment_eq]
  refine ⟨rfl, rfl, fun h => ?_⟩
  simp [map_recordPaymentUpd_of_none_unpaid c.db.payments cid today h]

/-- Witness for `record_payment_error_handling` on the store with no
outstanding unpaid record. -/
theorem record_payment_error_handling_witness :
    (record_payment connNoOutstanding 1 ⟨2024, 3, 15⟩).1 = true ∧
    (record_payment connNoOutstanding 1 ⟨2024, 3, 15⟩).2.db = connNoOutstanding.db := by
  have h := record_payment_error_handling connNoOutstanding 1 ⟨2024, 3, 15⟩
  exact ⟨h.1, h.2.2 (by decide)⟩

/-- Counterexample to claim C3 as stated: with no outstanding unpaid
record `record_payment` reports success (`True`) instead of failing with
`NoOutstandingPaymentError`, and even on a successful marking it emits no
INFO notification. -/
theorem record_payment_no_error_counterexample :
    (record_payment connNoOutstanding 1 ⟨2024, 3, 15⟩).1 = true ∧
    (record_payment connOneUnpaid 1 ⟨2024, 3, 15⟩).2.db.payment_notifications = [] := by
  refine ⟨by decide, by decide⟩

/-- Claim C10: a single `record_payment(customer_id)` call reports
success unconditionally (also with zero unpaid records), sets
`paid = true` and `payment_date = today` on every unpaid PaymentRecord of
that customer, and leaves payments of other customers, already-paid rows
and every other relation unchanged. -/
theorem record_payment_marks_all_unpaid (c : Conn) (cid : Nat) (today : Date) :
    (record_payment c cid today).1 = true ∧
    (record_payment c cid today).2.db.customers = c.db.customers ∧
    (record_payment c cid today).2.db.payment_methods = c.db.payment_methods ∧
    (record_payment c cid today).2.db.service_status = c.db.service_status ∧
    (record_payment c cid today).2.db.payment_notifications = c.db.payment_notifications ∧
    (record_payment c cid today).2.db.payments.length = c.db.payments.length ∧
    (∀ p ∈ c.db.payments, p.customer_id ≠ cid →
      p ∈ (record_payment c cid today).2.db.payments) ∧
    (∀ p ∈ c.db.payments, p.payment_made = true →
      p ∈ (record_payment c cid today).2.db.payments) ∧
    (∀ p ∈ c.db.payments, p.customer_id = cid → p.payment_made = false →
      { p with payment_made := true, payment_date := some today } ∈
        (record_payment c cid today).2.db.payments) := by
  rw [record_payment_eq]
  refine ⟨rfl, rfl, rfl, rfl, rfl, by simp, ?_, ?_, ?_⟩
  · intro p hp hne
    exact List.mem_map.mpr ⟨p, hp, recordPaymentUpd_eq_self p cid today
      fun hc => absurd hc hne⟩
  · intro p hp hpaid
    exact List.mem_map.mpr ⟨p, hp, recordPaymentUpd_eq_self p cid today fun _ => hpaid⟩
  · intro p hp hc hu
    exact List.mem_map.mpr ⟨p, hp, recordPaymentUpd_eq_upd p cid today hc hu⟩

/-- Witness for `record_payment_marks_all_unpaid` on the one-unpaid-row
store: the call succeeds and the row reappears paid and dated. -/
theorem record_payment_marks_all_unpaid_witness :
    (record_payment connOneUnpaid 1 ⟨2024, 3, 15⟩).1 = true ∧
    ({ payUnpaid with payment_made := true, payment_date := some ⟨2024, 3, 15⟩ } :
        Payment) ∈ (record_payment connOneUnpaid 1 ⟨2024, 3, 15⟩).2.db.payments := by
  have h := record_payment_marks_all_unpaid connOneUnpaid 1 ⟨2024, 3, 15⟩
  exact ⟨h.1, h.2.2.2.2.2.2.2.2 payUnpaid (by decide) (by decide) (by decide)⟩

/-- Claim C5 evaluation: two toggles for the same customer.  The
`INSERT OR REPLACE INTO service_status (customer_id, is_active,
last_status_change)` statement auto-assigns a fresh `status_id` and the
table has no unique constraint on `customer_id`, so no conflict ever
arises and each call appends a new row: after activate-then-deactivate
the store holds two current rows for customer 1 instead of one. -/
theorem toggle_service_status_appends :
    (toggle_service_status (toggle_service_status connNoOutstanding 1 true ⟨2024, 3, 15⟩).2
        1 false ⟨2024, 3, 16⟩).2.db.service_status =
      [{ status_id := 1, customer_id := 1, is_active := true
         last_status_change := ⟨2024, 3, 15⟩ },
       { status_id := 2, customer_id := 1, is_active := false
         last_status_change := ⟨2024, 3, 16⟩ }] ∧
    ((toggle_service_status (toggle_service_status connNoOutstanding 1 true ⟨2024, 3, 15⟩).2
        1 false ⟨2024, 3, 16⟩).2.db.service_status.filter
          fun s => s.customer_id == 1).length = 2 := by
  refine ⟨by decide, by decide⟩

/-- Fixture: customer fields of the one valid row of the import batch. -/
def cdRow1 : CustomerData :=
  { name := "Bruno", address := "Rua B", phone := "913", mbps := 200, state := "Active"
    contract_date := ⟨2024, 1, 15⟩, payment_day := 20 }

/-- Fixture: payment-method fields of the one valid row of the batch. -/
def pdRow1 : PaymentData :=
  { payment_type := "Bank Transfer", bank := "BFA", iban := "AO06", value := 75
    expiration_date := ⟨2025, 1, 15⟩ }

/-- Fixture: a two-row import batch whose second row has a non-numeric
`mbps` cell, so its field conversion raises before registration. -/
def importRows : List RawRow :=
  [RawRow.valid cdRow1 pdRow1,
   RawRow.invalid "invalid literal for int with base 10: abc"]

/-- Fixture: a fresh connection over the empty store. -/
def connImport : Conn := Conn.mk emptyDB none

/-- Claim C2 evaluation at the failing batch: the report carries the
success count and the per-row error with its row index, but the store is
NOT restored — `register_customer` commits after each successful row, so
the final `rollback` of `import_excel_data` has nothing left to undo and
the successfully imported customer stays in the store. -/
theorem import_commits_successful_rows :
    (import_excel_data connImport importRows ⟨2024, 1, 10⟩).1 =
      (false,
        "Imported 1 customers with 1 errors:\nRow 3: invalid literal for int with base 10: abc") ∧
    (import_excel_data connImport importRows ⟨2024, 1, 10⟩).2.db.customers.length = 1 ∧
    (import_excel_data connImport importRows ⟨2024, 1, 10⟩).2.db ≠ connImport.db := by
  refine ⟨by decide, by decide, by decide⟩

/-- The LEFT JOIN contributes the single NULL row when the customer has
no `service_status` row. -/
theorem joinedStatuses_of_nil (db : DB) (cid : Nat)
    (h : db.service_status.filter (fun s => s.customer_id == cid) = []) :
    joinedStatuses db cid = [none] := by
  unfold joinedStatuses
  rw [h]

/-- The LEFT JOIN contributes one row per matching `service_status` row
when at least one exists. -/
theorem joinedStatuses_of_cons (db : DB) (cid : Nat) (a : ServiceStatus)
    (t : List ServiceStatus)
    (h : db.service_status.filter (fun s => s.customer_id == cid) = a :: t) :
    joinedStatuses db cid = (a :: t).map some := by
  unfold joinedStatuses
  rw [h]

/-- Membership in the LEFT JOIN rows of one customer: the NULL row when
the customer has no `service_status` row, else exactly the matching
rows. -/
theorem mem_joinedStatuses (db : DB) (cid : Nat) (s? : Option ServiceStatus) :
    s? ∈ joinedStatuses db cid ↔
      ((db.service_status.filter (fun s => s.customer_id == cid) = [] ∧ s? = none) ∨
       (∃ s ∈ db.service_status, s.customer_id = cid ∧ s? = some s)) := by
  cases hfil : db.service_status.filter (fun s => s.customer_id == cid) with
  | nil =>
    rw [joinedStatuses_of_nil db cid hfil]
    constructor
    · intro h
      exact Or.inl ⟨rfl, by simpa using h⟩
    · intro h
      rcases h with ⟨-, rfl⟩ | ⟨s, hs, hc, rfl⟩
      · simp
      · have : s ∈ db.service_status.filter (fun s => s.customer_id == cid) :=
          List.mem_filter.mpr ⟨hs, by simp [hc]⟩
        rw [hfil] at this
        cases this
  | cons a t =>
    rw [joinedStatuses_of_cons db cid a t hfil]
    constructor
    · intro h
      obtain ⟨s, hs, rfl⟩ := List.mem_map.mp h
      rw [← hfil] at hs
      have hsf := List.mem_filter.mp hs
      exact Or.inr ⟨s, hsf.1, by simpa using hsf.2, rfl⟩
    · intro h
      rcases h with ⟨hnil, -⟩ | ⟨s, hs, hc, rfl⟩
      · simp at hnil
      · have hsf : s ∈ db.service_status.filter (fun s => s.customer_id == cid) :=
          List.mem_filter.mpr ⟨hs, by simp [hc]⟩
        rw [hfil] at hsf
        exact List.mem_map.mpr ⟨s, hsf, rfl⟩

/-- Claim C4 (amended): `check_expired_payments` returns exactly the
unpaid payments with due date strictly before the as-of date whose owner
either has no `service_status` row (reported with NULL active flag) or
has an active `service_status` row (one result row per such status row,
reported active); customers all of whose `service_status` rows are
inactive are excluded by the `is_active = 1 OR is_active IS NULL` filter.
The query is a pure read of the store, hence deterministic. -/
theorem check_expired_payments_mem (db : DB) (today : Date) (row : OverdueRow) :
    row ∈ check_expired_payments db today ↔
      ∃ cu ∈ db.customers, ∃ p ∈ db.payments,
        p.customer_id = cu.customer_id ∧ p.payment_made = false ∧
        dateLt p.due_date today = true ∧
        ((db.service_status.filter (fun s => s.customer_id == cu.customer_id) = [] ∧
            row = ⟨cu.customer_id, cu.name, p.due_date, p.value, none⟩) ∨
         (∃ s ∈ db.service_status, s.customer_id = cu.customer_id ∧ s.is_active = true ∧
            row = ⟨cu.customer_id, cu.name, p.due_date, p.value, some true⟩)) := by
  unfold check_expired_payments
  simp only [List.mem_flatMap, List.mem_filterMap, List.mem_filter]
  constructor
  · rintro ⟨cu, hcu, p, ⟨hp, hpc⟩, s?, hs?, hif⟩
    split at hif
    case isFalse => cases hif
    case isTrue hcond =>
      obtain rfl := Option.some.inj hif
      have hpc2 : p.customer_id = cu.customer_id := by simpa using hpc
      rw [Bool.and_eq_true, Bool.and_eq_true] at hcond
      have h1 : p.payment_made = false := by simpa using hcond.1.1
      have h2 : dateLt p.due_date today = true := hcond.1.2
      refine ⟨cu, hcu, p, hp, hpc2, h1, h2, ?_⟩
      rcases (mem_joinedStatuses db cu.customer_id s?).mp hs? with ⟨hnil, rfl⟩ |
        ⟨s, hs, hsc, rfl⟩
      · exact Or.inl ⟨hnil, rfl⟩
      · have hact : s.is_active = true := by simpa using hcond.2
        exact Or.inr ⟨s, hs, hsc, hact, by simp [hact]⟩
  · rintro ⟨cu, hcu, p, hp, hpc, h1, h2, hbr⟩
    rcases hbr with ⟨hnil, rfl⟩ | ⟨s, hs, hsc, hact, rfl⟩
    · refine ⟨cu, hcu, p, ⟨hp, by simp [hpc]⟩, none, ?_, ?_⟩
      · exact (mem_joinedStatuses db cu.customer_id none).mpr (Or.inl ⟨hnil, rfl⟩)
      · rw [if_pos (by simp [h1, h2])]
        rfl
    · refine ⟨cu, hcu, p, ⟨hp, by simp [hpc]⟩, some s, ?_, ?_⟩
      · exact (mem_joinedStatuses db cu.customer_id (some s)).mpr (Or.inr ⟨s, hs, hsc, rfl⟩)
      · rw [if_pos (by simp [h1, h2, hact])]
        simp [hact]

/-- Fixture: a current inactive `service_status` row for customer 1. -/
def ssInactive : ServiceStatus :=
  { status_id := 1, customer_id := 1, is_active := false
    last_status_change := ⟨2024, 2, 1⟩ }

/-- Fixture: store with customer 1, one unpaid payment overdue since
2024-01-20, and an inactive service status. -/
def dbInactiveOverdue : DB :=
  { emptyDB with
    customers := [cust1], payments := [payUnpaid], service_status := [ssInactive]
    nextCustomerId := 2, nextPaymentId := 2, nextStatusId := 2 }

/-- Counterexample to claim C4 as stated: customer 1 has an unpaid
payment due strictly before the as-of date, yet `check_expired_payments`
returns nothing because the service status of the customer is inactive —
the query does not report overdue records regardless of service status. -/
theorem overdue_query_skips_inactive_counterexample :
    check_expired_payments dbInactiveOverdue ⟨2024, 3, 15⟩ = [] ∧
    payUnpaid ∈ dbInactiveOverdue.payments ∧
    payUnpaid.payment_made = false ∧
    dateLt payUnpaid.due_date ⟨2024, 3, 15⟩ = true := by
  refine ⟨by decide, by decide, by decide, by decide⟩

/-- Witness for `check_expired_payments_mem`: the unpaid overdue payment
of a customer without any `service_status` row is reported with a NULL
active flag. -/
theorem check_expired_payments_mem_witness :
    ({ customer_id := 1, name := "Ana", due_date := ⟨2024, 1, 20⟩, value := 50
       is_active := none } : OverdueRow) ∈
      check_expired_payments connOneUnpaid.db ⟨2024, 3, 15⟩ :=
  (check_expired_payments_mem connOneUnpaid.db ⟨2024, 3, 15⟩ _).mpr
    ⟨cust1, by decide, payUnpaid, by decide, by decide, by decide, by decide,
      Or.inl ⟨by decide, by decide⟩⟩

/-- One core operation of the program together with the calendar date at
which it runs: manual registration, payment recording, the two status
mutations, the periodic sweep, and bulk import. -/
inductive Op where
  | register (cd : CustomerData) (pdta : PaymentData) (today : Date)
  | recordPay (cid : Nat) (today : Date)
  | toggle (cid : Nat) (activate : Bool) (today : Date)
  | updateState (cid : Nat) (newStatus : String)
  | sweep (today : Date)
  | importData (rows : List RawRow) (today : Date)
deriving Repr

/-- Apply one operation to the connection, discarding its report. -/
def applyOp (c : Conn) : Op → Conn
  | Op.register cd pdta today => (register_customer c cd pdta today).2
  | Op.recordPay cid today => (record_payment c cid today).2
  | Op.toggle cid activate today => (toggle_service_status c cid activate today).2
  | Op.updateState cid st => (update_customer_status c cid st).2
  | Op.sweep today => Conn.mk (check_payments c.db today).1 c.snapshot
  | Op.importData rows today => (import_excel_data c rows today).2

/-- Sequential execution of a list of operations. -/
def applyOps (c : Conn) : List Op → Conn
  | [] => c
  | op :: rest => applyOps (applyOp c op) rest

/-- Invariant for claim C9: the payment row is present in the current
database and also in the open-transaction snapshot when one exists, so a
rollback cannot lose it. -/
def PaidRowIn (p : Payment) (c : Conn) : Prop :=
  p ∈ c.db.payments ∧ ∀ s, c.snapshot = some s → p ∈ s.payments

/-- Opening an implicit transaction preserves the invariant. -/
theorem paidRowIn_beginImplicit (p : Payment) (c : Conn) (h : PaidRowIn p c) :
    PaidRowIn p (beginImplicit c) := by
  unfold beginImplicit
  cases hs : c.snapshot with
  | some s => exact h
  | none => exact ⟨h.1, fun s hs2 => (Option.some.inj hs2) ▸ h.1⟩

/-- A rollback preserves the invariant: the restored snapshot also holds
the row. -/
theorem paidRowIn_rollback (p : Payment) (c : Conn) (h : PaidRowIn p c) :
    PaidRowIn p (rollbackTxn c) := by
  unfold rollbackTxn
  cases hs : c.snapshot with
  | some s => exact ⟨h.2 s hs, fun s2 hs2 => Option.noConfusion hs2⟩
  | none => exact h

/-- Registration preserves the invariant: it only appends rows and never
touches existing payments, on success and on the escaped `ValueError`
alike. -/
theorem paidRowIn_register (p : Payment) (c : Conn) (cd : CustomerData)
    (pdta : PaymentData) (today : Date) (h : PaidRowIn p c) :
    PaidRowIn p (register_customer c cd pdta today).2 := by
  have h1 := paidRowIn_beginImplicit p c h
  unfold register_customer
  cases hd : computeFirstDueDate cd.contract_date cd.payment_day today with
  | none =>
    simp only [hd]
    exact ⟨h1.1, h1.2⟩
  | some due =>
    simp only [hd]
    exact ⟨List.mem_append_left _ h1.1, fun s hs => Option.noConfusion hs⟩

/-- Recording a payment preserves the invariant for an already-paid row:
the UPDATE only touches unpaid rows. -/
theorem paidRowIn_recordPay (p : Payment) (c : Conn) (cid : Nat) (today : Date)
    (h : PaidRowIn p c) (hpaid : p.payment_made = true) :
    PaidRowIn p (record_payment c cid today).2 := by
  rw [record_payment_eq]
  exact ⟨List.mem_map.mpr ⟨p, h.1, recordPaymentUpd_eq_self p cid today fun _ => hpaid⟩,
    fun s hs => Option.noConfusion hs⟩

/-- The service-status toggle never touches payments. -/
theorem paidRowIn_toggle (p : Payment) (c : Conn) (cid : Nat) (activate : Bool)
    (today : Date) (h : PaidRowIn p c) :
    PaidRowIn p (toggle_service_status c cid activate today).2 := by
  have h1 := paidRowIn_beginImplicit p c h
  unfold toggle_service_status
  exact ⟨h1.1, fun s hs => Option.noConfusion hs⟩

/-- The customer-state UPDATE never touches payments. -/
theorem paidRowIn_updateState (p : Payment) (c : Conn) (cid : Nat) (st : String)
    (h : PaidRowIn p c) :
    PaidRowIn p (update_customer_status c cid st).2 := by
  have h1 := paidRowIn_beginImplicit p c h
  unfold update_customer_status
  exact ⟨h1.1, fun s hs => Option.noConfusion hs⟩

/-- The import row loop preserves the invariant. -/
theorem paidRowIn_importLoop (p : Payment) (today : Date) (rows : List RawRow) :
    ∀ c : Conn, ∀ idx succ : Nat, ∀ errs : List String, PaidRowIn p c →
      PaidRowIn p (importLoop c rows idx succ errs today).2 := by
  induction rows with
  | nil => intro c idx succ errs h; exact h
  | cons r rest ih =>
    intro c idx succ errs h
    cases r with
    | valid cd pdta =>
      have hreg := paidRowIn_register p c cd pdta today h
      unfold importLoop
      dsimp only
      cases hr : register_customer c cd pdta today with
      | mk res c1 =>
        rw [hr] at hreg
        cases res with
        | ok cid => exact ih c1 (idx + 1) (succ + 1) errs hreg
        | valueError msg =>
          exact ih c1 (idx + 1) succ (errs ++ [s!"Row {idx + 2}: {msg}"]) hreg
    | invalid msg =>
      unfold importLoop
      exact ih c (idx + 1) succ (errs ++ [s!"Row {idx + 2}: {msg}"]) h

/-- Bulk import preserves the invariant through BEGIN, the row loop, and
the final commit or rollback. -/
theorem paidRowIn_import (p : Payment) (c : Conn) (rows : List RawRow) (today : Date)
    (h : PaidRowIn p c) : PaidRowIn p (import_excel_data c rows today).2 := by
  obtain ⟨db0, snap⟩ := c
  unfold import_excel_data
  cases snap with
  | some s => exact paidRowIn_rollback p (Conn.mk db0 (some s)) h
  | none =>
    dsimp only
    have hstart : PaidRowIn p (Conn.mk db0 (some db0)) :=
      ⟨h.1, fun s hs2 => (Option.some.inj hs2) ▸ h.1⟩
    have hloop := paidRowIn_importLoop p today rows (Conn.mk db0 (some db0)) 0 0 [] hstart
    split
    · exact ⟨hloop.1, fun s hs2 => Option.noConfusion hs2⟩
    · exact paidRowIn_rollback p _ hloop

/-- Every single operation preserves the invariant for a paid row. -/
theorem paidRowIn_applyOp (p : Payment) (hpaid : p.payment_made = true) (c : Conn)
    (op : Op) (h : PaidRowIn p c) : PaidRowIn p (applyOp c op) := by
  cases op with
  | register cd pdta today => exact paidRowIn_register p c cd pdta today h
  | recordPay cid today => exact paidRowIn_recordPay p c cid today h hpaid
  | toggle cid activate today => exact paidRowIn_toggle p c cid activate today h
  | updateState cid st => exact paidRowIn_updateState p c cid st h
  | sweep today => exact h
  | importData rows today => exact paidRowIn_import p c rows today h

/-- Every operation sequence preserves the invariant for a paid row. -/
theorem paidRowIn_applyOps (p : Payment) (hpaid : p.payment_made = true) (ops : List Op) :
    ∀ c : Conn, PaidRowIn p c → PaidRowIn p (applyOps c ops) := by
  induction ops with
  | nil => intro c h; exact h
  | cons op rest ih =>
    intro c h
    exact ih _ (paidRowIn_applyOp p hpaid c op h)

/-- Claim C9: the paid flag is monotonic across all core operations —
starting from a connection with no open transaction, a PaymentRecord that
is marked paid stays in the store, unchanged, after any sequence of
registrations, payment recordings, status toggles, customer-state
updates, sweeps and bulk imports; no operation reverts it to unpaid. -/
theorem paid_flag_monotonic (ops : List Op) (c : Conn) (p : Payment)
    (hp : p ∈ c.db.payments) (hpaid : p.payment_made = true)
    (hsnap : c.snapshot = none) :
    p ∈ (applyOps c ops).db.payments :=
  (paidRowIn_applyOps p hpaid ops c
    ⟨hp, fun s hs => by rw [hsnap] at hs; exact Option.noConfusion hs⟩).1

/-- Fixture: an already-paid payment row of customer 1. -/
def payPaid : Payment :=
  { payment_id := 2, customer_id := 1, payment_date := some ⟨2024, 2, 20⟩
    due_date := ⟨2024, 2, 20⟩, value := 50, payment_made := true }

/-- Fixture: a connection whose store holds customer 1 with one paid
payment and no open transaction. -/
def connPaid : Conn :=
  Conn.mk
    { emptyDB with
      customers := [cust1], payments := [payPaid]
      nextCustomerId := 2, nextPaymentId := 3 }
    none

/-- Fixture: a sequence exercising every operation kind. -/
def opsFixture : List Op :=
  [Op.recordPay 1 ⟨2024, 3, 15⟩, Op.toggle 1 false ⟨2024, 3, 16⟩,
   Op.sweep ⟨2024, 3, 17⟩, Op.updateState 1 "Inactive",
   Op.register cdRow1 pdRow1 ⟨2024, 3, 18⟩, Op.importData importRows ⟨2024, 3, 19⟩]

/-- Witness for `paid_flag_monotonic` on a concrete six-operation run. -/
theorem paid_flag_monotonic_witness :
    payPaid ∈ (applyOps connPaid opsFixture).db.payments :=
  paid_flag_monotonic opsFixture connPaid payPaid (by decide) (by decide) (by decide)
